import Mathlib

/-!
Verification development for the MoonFit storefront bot's payment-verification
and order-settlement core.

The embedding below translates the Python sources into Lean:
* `ton_payments.py` (ledger client and payment matcher) — transactions are
  records with optional fields mirroring the JSON the toncenter API returns;
  monetary amounts (Python binary floats) are modelled as exact rationals,
  which preserves every comparison and clamp the claims are about.
* `utils.py` / `discount_manager` / `database_1753438860626.py` (discount
  evaluator and usage ledger).
* `main_1753438860935.py` (checkout / payment-confirmation / cancellation
  handlers) as a state-transition system over a store state; SQL tables with
  a primary key are modelled as functions from the key, multi-row tables as
  lists.
* `main.py` (the first generation's `start_checkout`).

Fetches from the remote ledger are modelled by a `FetchResult` per polling
round: the network request either yields a transaction batch or fails with a
non-200 status, a malformed/not-ok payload, or a network exception.
-/

/-- The `transaction_id` sub-object of a ledger transaction
(`tx['transaction_id']['hash']` in `ton_payments.py`). -/
structure TransactionId where
  hash : Option String
  deriving Repr, DecidableEq

/-- The `in_msg` sub-object of a ledger transaction. `none` on an optional
field models a missing key; `value` is kept as the raw string the API sends
(it must survive a Python `int(...)` call). A missing or empty `in_msg` dict
is modelled as `none` on `LedgerTx.in_msg` (both are falsy and all accesses
go through `.get` with a default, so the two behave identically). -/
structure InMsg where
  destination : Option String
  value : Option String
  msgDataType : Option String
  msgDataText : Option String
  message : Option String
  deriving Repr, DecidableEq

/-- A raw ledger transaction as fetched from the toncenter API. -/
structure LedgerTx where
  in_msg : Option InMsg
  transaction_id : Option TransactionId
  deriving Repr, DecidableEq

/-- Decimal digits to a natural number; `none` when the list is empty or a
non-digit appears. Helper for the Python `int(...)` model. -/
def digitsToNat : List Char → Option Nat
  | [] => none
  | cs =>
    cs.foldl
      (fun acc c =>
        acc.bind (fun n => if c.isDigit then some (10 * n + (c.toNat - 48)) else none))
      (some 0)

/-- Strip leading and trailing whitespace from a character list (the
whitespace tolerance of Python `int(string)`). -/
def stripWhitespace (cs : List Char) : List Char :=
  ((cs.dropWhile Char.isWhitespace).reverse.dropWhile Char.isWhitespace).reverse

/-- Model of Python `int(string)`: surrounding whitespace is ignored, an
optional sign is allowed, and anything else non-numeric raises — modelled as
`none` (the callers in `ton_payments.py` catch the exception). -/
def pyToInt (s : String) : Option Int :=
  match stripWhitespace s.toList with
  | '-' :: cs => (digitsToNat cs).map (fun n => -(n : Int))
  | '+' :: cs => (digitsToNat cs).map (fun n => (n : Int))
  | cs => (digitsToNat cs).map (fun n => (n : Int))

/-- `TONPaymentProcessor._is_incoming_transaction`: a transaction is incoming
iff its `in_msg` is present and non-empty and its `destination` equals the
configured wallet address. -/
def is_incoming_transaction (wallet : String) (tx : LedgerTx) : Bool :=
  match tx.in_msg with
  | none => false
  | some m => m.destination == some wallet

/-- `TONPaymentProcessor._get_transaction_amount`: `int(in_msg.get('value','0'))`
divided by `1_000_000_000` (nanoTON to TON); a missing `in_msg` yields the
`'0'` default and a non-integer `value` raises, caught to `0.0`. -/
def get_transaction_amount (tx : LedgerTx) : ℚ :=
  match tx.in_msg with
  | none => 0
  | some m =>
    match pyToInt (m.value.getD "0") with
    | none => 0
    | some v => (v : ℚ) / 1000000000

/-- `TONPaymentProcessor._get_transaction_comment`: prefer the decoded
`msg.dataText` text when non-empty, then the raw `message` body when
non-empty, otherwise the empty string (absent memo). -/
def get_transaction_comment (tx : LedgerTx) : String :=
  match tx.in_msg with
  | none => ""
  | some m =>
    let text := if m.msgDataType == some "msg.dataText" then m.msgDataText.getD "" else ""
    if text ≠ "" then text
    else m.message.getD ""

/-- `tx.get('transaction_id', {}).get('hash', '')`. -/
def get_transaction_hash (tx : LedgerTx) : String :=
  match tx.transaction_id with
  | none => ""
  | some t => t.hash.getD ""

/-- The matching test inside `verify_payment`'s scan: incoming, amount within
the hard-coded `0.001` tolerance of the expected amount, and comment exactly
equal to the expected comment. -/
def tx_matches (wallet : String) (expected_amount : ℚ) (comment : String) (tx : LedgerTx) : Bool :=
  is_incoming_transaction wallet tx &&
    decide (|get_transaction_amount tx - expected_amount| < 1 / 1000) &&
    (get_transaction_comment tx == comment)

/-- The `for tx in transactions` scan of one polling round: first transaction
that passes `tx_matches` (non-incoming or non-matching ones are skipped via
`continue`). -/
def find_matching_tx (wallet : String) (ea : ℚ) (c : String) : List LedgerTx → Option LedgerTx
  | [] => none
  | tx :: rest =>
    if tx_matches wallet ea c tx then some tx else find_matching_tx wallet ea c rest

/-- Outcome of one network fetch of the wallet's transaction history. -/
inductive FetchResult where
  | ok (txs : List LedgerTx)
  | httpError (status : Nat)
  | badPayload
  | netError
  deriving Repr, DecidableEq

/-- `true` exactly on the failing fetch outcomes. -/
def FetchResult.isFailure : FetchResult → Bool
  | .ok _ => false
  | .httpError _ => true
  | .badPayload => true
  | .netError => true

/-- `TONPaymentProcessor.get_transaction_history`: returns the batch on a
successful 200/ok response and `[]` on a non-success status, a malformed or
not-ok payload, or a raised exception (all are caught, logged, and turned
into the empty list). -/
def get_transaction_history : FetchResult → List LedgerTx
  | .ok txs => txs
  | .httpError _ => []
  | .badPayload => []
  | .netError => []

/-- `TONPaymentProcessor.verify_payment`: the polling loop, one `FetchResult`
per round the deadline admits (the loop body also wraps each round in a
`try/except` that sleeps and continues, so a failing round can never abort
the loop). Returns `(True, tx_hash)` on the first round containing a match
and `(False, None)` once the deadline (end of the round list) is reached. -/
def verify_payment (wallet : String) (ea : ℚ) (comment : String) :
    List FetchResult → Bool × Option String
  | [] => (false, none)
  | r :: rest =>
    match find_matching_tx wallet ea comment (get_transaction_history r) with
    | some tx => (true, some (get_transaction_hash tx))
    | none => verify_payment wallet ea comment rest

/-- `MIN_TON_AMOUNT` from `config.py` (default `0.01`). -/
def MIN_TON_AMOUNT : ℚ := 1 / 100

/-- `TONPaymentProcessor.validate_amount`: reject below the configured
minimum, reject above the hard-coded `1000` maximum, accept otherwise. -/
def validate_amount (amount : ℚ) : Bool × String :=
  if amount < MIN_TON_AMOUNT then (false, "Minimum payment amount is 0.01 TON")
  else if amount > 1000 then (false, "Payment amount too large")
  else (true, "Valid amount")

/-- Discount type (`'percentage'` or `'fixed'` in the database). -/
inductive DiscountType where
  | percentage
  | fixed
  deriving Repr, DecidableEq

/-- The pre-clamp discount value of `utils.calculate_discount` (the local
`discount` variable): `total_amount * (discount_value / 100)` for percentage
codes, the raw value for fixed codes. `DiscountManager.apply_discount` in
`discount_manager_1753438860741.py` computes the same quantity. -/
def raw_discount (total_amount : ℚ) (t : DiscountType) (value : ℚ) : ℚ :=
  match t with
  | .percentage => total_amount * (value / 100)
  | .fixed => value

/-- `utils.calculate_discount`: the raw discount clamped by
`min(discount, total_amount)` (no further flooring in the source). -/
def calculate_discount (total_amount : ℚ) (t : DiscountType) (value : ℚ) : ℚ :=
  min (raw_discount total_amount t value) total_amount

/-- A row of the gen-2 `discount_codes` table (`database_1753438860626.py`).
`expiry_date` is an abstract timestamp (`none` = NULL = no expiry);
`usage_limit = none` models NULL. -/
structure DiscountCode where
  id : Nat
  code : String
  discount_type : DiscountType
  discount_value : ℚ
  usage_limit : Option Nat
  used_count : Nat
  expiry_date : Option Nat
  active : Bool
  deriving Repr, DecidableEq

/-- A row of the `discount_usage` ledger table: one recorded use of a code. -/
structure UsageRecord where
  code_id : Nat
  user_id : Nat
  order_id : Nat
  deriving Repr, DecidableEq

/-- The discount registry slice of the gen-2 database. -/
structure DiscountDB where
  codes : List DiscountCode
  usage : List UsageRecord
  deriving Repr, DecidableEq

/-- `Database.get_discount_code` (gen 2):
`SELECT * FROM discount_codes WHERE code = ? AND active = TRUE`. -/
def get_discount_code (db : DiscountDB) (code : String) : Option DiscountCode :=
  db.codes.find? (fun d => d.code == code && d.active)

/-- The expiry check of `Database.validate_discount_code`:
`if discount['expiry_date']` (NULL is falsy) `and datetime.now() > expiry`. -/
def expiry_passed (d : DiscountCode) (now : Nat) : Bool :=
  match d.expiry_date with
  | none => false
  | some e => decide (e < now)

/-- The usage-limit check of `Database.validate_discount_code`:
`if discount['usage_limit']` (NULL and 0 are falsy)
`and discount['used_count'] >= discount['usage_limit']`. -/
def limit_reached (d : DiscountCode) : Bool :=
  match d.usage_limit with
  | none => false
  | some l => l != 0 && decide (l ≤ d.used_count)

/-- The per-user reuse check of `Database.validate_discount_code`:
`SELECT COUNT(*) FROM discount_usage WHERE code_id = ? AND user_id = ?` is
positive. -/
def user_already_used (db : DiscountDB) (code_id uid : Nat) : Bool :=
  db.usage.any (fun u => u.code_id == code_id && u.user_id == uid)

/-- Outcome of `Database.validate_discount_code`, one constructor per early
return (the attached message strings are UI text). -/
inductive ValidateResult where
  | notFoundOrInactive
  | expired
  | limitReached
  | alreadyUsed
  | valid (d : DiscountCode)
  deriving Repr, DecidableEq

/-- `Database.validate_discount_code` (gen 2,
`database_1753438860626.py`): lookup (active codes only), then expiry, then
usage limit, then the per-user usage-ledger check, first failure wins. -/
def validate_discount_code (db : DiscountDB) (code : String) (uid now : Nat) :
    ValidateResult :=
  match get_discount_code db code with
  | none => .notFoundOrInactive
  | some d =>
    if expiry_passed d now then .expired
    else if limit_reached d then .limitReached
    else if user_already_used db d.id uid then .alreadyUsed
    else .valid d

/-- `Database.use_discount_code` (gen 2): insert a `discount_usage` row and
increment the code's `used_count`, in one transaction. -/
def use_discount_code (db : DiscountDB) (code_id uid oid : Nat) : DiscountDB :=
  { codes :=
      db.codes.map (fun d =>
        if d.id == code_id then { d with used_count := d.used_count + 1 } else d),
    usage := db.usage ++ [⟨code_id, uid, oid⟩] }

/-- Order status column; the gen-2 schema constrains it to exactly these
five values. -/
inductive OrderStatus where
  | pending
  | paid
  | shipped
  | delivered
  | cancelled
  deriving Repr, DecidableEq

/-- A cart line item as the gen-2 cart summary produces it. -/
structure CartItem where
  product_id : Nat
  quantity : Nat
  price : ℚ
  deriving Repr, DecidableEq

/-- A row of the gen-2 `orders` table (the columns the settlement flow
touches; `status` defaults to `pending` on insert). -/
structure Order where
  user_id : Nat
  products : List CartItem
  total_amount : ℚ
  discount_code : Option String
  discount_amount : ℚ
  final_amount : ℚ
  status : OrderStatus
  payment_hash : Option String
  deriving Repr, DecidableEq

/-- The `data` dict of a `user_sessions` row, with the keys the payment flow
reads; a key missing from the stored dict is its `.get` default (`none`,
`0`, `""`). -/
structure SessionData where
  order_id : Option Nat
  amount : ℚ
  comment : String
  discount_code : Option String
  discount_amount : ℚ
  deriving Repr, DecidableEq

/-- The `(None, {})` result `Database.get_user_state` returns when the user
has no session row. -/
def emptySession : SessionData :=
  { order_id := none, amount := 0, comment := "", discount_code := none,
    discount_amount := 0 }

/-- The gen-2 store state threaded through the bot handlers. Tables keyed by
a primary key (`orders.id`, `carts.user_id`, `user_sessions.user_id`) are
functions from the key; `next_order_id` models sqlite's AUTOINCREMENT
row id. -/
structure BotState where
  orders : Nat → Option Order
  next_order_id : Nat
  carts : Nat → List CartItem
  sessions : Nat → Option (String × SessionData)
  discounts : DiscountDB

/-- Python truthiness of an optional integer (`None` and `0` are falsy), as
used on `state_data.get('order_id')`. -/
def pyTruthyNat : Option Nat → Bool
  | none => false
  | some n => n != 0

/-- Python truthiness of an optional string (`None` and `''` are falsy), as
used on `state_data.get('discount_code')`. -/
def pyTruthyStr : Option String → Bool
  | none => false
  | some s => s != ""

/-- `Database.get_user_state`: the stored `(state, data)` row, or
`(None, {})` (modelled `("", emptySession)`) when absent. -/
def get_user_state (s : BotState) (uid : Nat) : String × SessionData :=
  (s.sessions uid).getD ("", emptySession)

/-- `SELECT`+`INSERT OR REPLACE` of `Database.set_user_state`. -/
def set_user_state (s : BotState) (uid : Nat) (v : String × SessionData) : BotState :=
  { s with sessions := fun u => if u = uid then some v else s.sessions u }

/-- `Database.clear_user_state`: `DELETE FROM user_sessions WHERE user_id`. -/
def clear_user_state (s : BotState) (uid : Nat) : BotState :=
  { s with sessions := fun u => if u = uid then none else s.sessions u }

/-- The user's current cart contents. -/
def get_cart (s : BotState) (uid : Nat) : List CartItem :=
  s.carts uid

/-- `cart_manager.clear_cart` → `db.clear_user_cart`: the user's cart rows
are deleted. -/
def clear_cart (s : BotState) (uid : Nat) : BotState :=
  { s with carts := fun u => if u = uid then [] else s.carts u }

/-- `Database.update_order_status` (gen 2): unconditionally set `status`
and, when a payment hash is supplied, `payment_hash`, for the given order
id. No guard on the previous status. -/
def update_order_status (s : BotState) (oid : Nat) (st : OrderStatus)
    (hash : Option String) : BotState :=
  { s with orders := fun o =>
      if o = oid then
        (s.orders o).map (fun od =>
          { od with status := st,
                    payment_hash := match hash with
                      | some h => some h
                      | none => od.payment_hash })
      else s.orders o }

/-- Order status by id, as an observer on the store. -/
def order_status (s : BotState) (oid : Nat) : Option OrderStatus :=
  (s.orders oid).map Order.status

/-- `CartManager.prepare_order_data` (gen 2): `None` on an empty cart,
otherwise the items and the cart total. (The additional stock re-validation
can only turn more carts into `None`; modelling it as always passing only
adds behaviours, which is conservative for every safety statement below.) -/
def prepare_order_data (s : BotState) (uid : Nat) : Option (List CartItem × ℚ) :=
  let items := get_cart s uid
  if items.isEmpty then none
  else some (items, (items.map (fun i => i.price * (i.quantity : ℚ))).sum)

/-- Outcome of `MoonFitBot.process_payment`. -/
inductive ProcessOutcome where
  | orderError
  | started (oid : Nat)
  deriving Repr, DecidableEq

/-- `MoonFitBot.process_payment` (gen 2, `main_1753438860935.py`): build the
order data from the cart (error if empty), read the session's discount code
and amount, create the order (status defaults to `pending`), and store a
`WAITING_PAYMENT` session holding `order_id`, the final `amount` and the
`ORDER_<orderId>_<userId>` comment — and only those three keys, so the
stored session's `discount_code` is the `.get` default. The cart is NOT
cleared here. -/
def process_payment (s : BotState) (uid : Nat) : BotState × ProcessOutcome :=
  match prepare_order_data s uid with
  | none => (s, .orderError)
  | some (items, total) =>
    let st := get_user_state s uid
    let dc := st.2.discount_code
    let da := st.2.discount_amount
    let fin := total - da
    let oid := s.next_order_id
    let order : Order :=
      { user_id := uid, products := items, total_amount := total,
        discount_code := dc, discount_amount := da, final_amount := fin,
        status := .pending, payment_hash := none }
    let s1 : BotState :=
      { s with orders := fun o => if o = oid then some order else s.orders o,
               next_order_id := oid + 1 }
    let pd : SessionData :=
      { order_id := some oid, amount := fin,
        comment := "ORDER_" ++ toString oid ++ "_" ++ toString uid,
        discount_code := none, discount_amount := 0 }
    (set_user_state s1 uid ("WAITING_PAYMENT", pd), .started oid)

/-- Outcome of `MoonFitBot.check_payment_status`. -/
inductive CheckOutcome where
  | noPending
  | paid (oid : Nat) (hash : String)
  | notFoundYet
  deriving Repr, DecidableEq

/-- The discount-usage side effect inside `check_payment_status`'s success
branch: `if state_data.get('discount_code')` then look the code up
(`get_discount_info` upper-cases it) and, when found, insert the usage row
and increment the used count. -/
def discounts_after_payment (db : DiscountDB) (d : SessionData) (uid oid : Nat) :
    DiscountDB :=
  if pyTruthyStr d.discount_code then
    match get_discount_code db ((d.discount_code.getD "").toUpper) with
    | none => db
    | some disc => use_discount_code db disc.id uid oid
  else db

/-- `MoonFitBot.check_payment_status` (gen 2): no-op unless the session is
`WAITING_PAYMENT` with a truthy `order_id`; then run `verify_payment` over
the polling rounds; on success set the order `paid` with the transaction
hash, clear the cart, delete the session row, and record discount usage; on
failure leave the store untouched. -/
def check_payment_status (w : String) (s : BotState) (uid : Nat)
    (rounds : List FetchResult) : BotState × CheckOutcome :=
  let st := get_user_state s uid
  if st.1 == "WAITING_PAYMENT" && pyTruthyNat st.2.order_id then
    let oid := st.2.order_id.getD 0
    let res := verify_payment w st.2.amount st.2.comment rounds
    if res.1 then
      let txh := res.2.getD ""
      let s1 := update_order_status s oid .paid (some txh)
      let s2 := clear_cart s1 uid
      let s3 := clear_user_state s2 uid
      let s4 := { s3 with discounts := discounts_after_payment s3.discounts st.2 uid oid }
      (s4, .paid oid txh)
    else (s, .notFoundYet)
  else (s, .noPending)

/-- Outcome of `MoonFitBot.cancel_current_order`. -/
inductive CancelOutcome where
  | cancelledOrder (oid : Nat)
  | noPendingOrder
  deriving Repr, DecidableEq

/-- `MoonFitBot.cancel_current_order` (gen 2): when the session is
`WAITING_PAYMENT` with a truthy `order_id`, set that order `cancelled`
(unconditionally — `update_order_status` has no status guard) and delete
the session row; otherwise a no-op. -/
def cancel_current_order (s : BotState) (uid : Nat) : BotState × CancelOutcome :=
  let st := get_user_state s uid
  if st.1 == "WAITING_PAYMENT" && pyTruthyNat st.2.order_id then
    let oid := st.2.order_id.getD 0
    let s1 := update_order_status s oid .cancelled none
    (clear_user_state s1 uid, .cancelledOrder oid)
  else (s, .noPendingOrder)

/-- `AdminPanel.update_order_status` (`admin_panel_1753438860393.py`): any of
the five statuses may be written to any existing order; the previous status
is read only for logging, never checked. -/
def admin_update_order_status (s : BotState) (oid : Nat) (st : OrderStatus) :
    BotState × Bool :=
  match s.orders oid with
  | none => (s, false)
  | some _ => (update_order_status s oid st none, true)

/-- The store-mutating operations reachable from the bot's handlers. -/
inductive BotOp where
  | processPayment (uid : Nat)
  | checkPayment (uid : Nat) (rounds : List FetchResult)
  | cancelOrder (uid : Nat)
  | adminSetStatus (oid : Nat) (st : OrderStatus)

/-- The operations of the user checkout flow (everything except the admin
panel's status override). -/
def BotOp.isUserOp : BotOp → Bool
  | .processPayment _ => true
  | .checkPayment _ _ => true
  | .cancelOrder _ => true
  | .adminSetStatus _ _ => false

/-- One operation's effect on the store. -/
def step (w : String) (s : BotState) : BotOp → BotState
  | .processPayment uid => (process_payment s uid).1
  | .checkPayment uid rounds => (check_payment_status w s uid rounds).1
  | .cancelOrder uid => (cancel_current_order s uid).1
  | .adminSetStatus oid st => (admin_update_order_status s oid st).1

/-- A sequence of operations run left to right. -/
def run (w : String) (s : BotState) : List BotOp → BotState
  | [] => s
  | op :: ops => run w (step w s op) ops

/-- A gen-1 cart line as `CartManager.get_cart_items` (`cart_manager.py`)
returns it: the stored quantity joined with the live product's price and an
`in_stock` flag (`available_quantity == quantity`). -/
structure Cart1Item where
  product_id : Nat
  quantity : Nat
  price : ℚ
  in_stock : Bool
  deriving Repr, DecidableEq

/-- A row of the gen-1 `orders` table (the columns `start_checkout`
writes). -/
structure Order1 where
  user_id : Nat
  order_data : List Cart1Item
  total_amount : ℚ
  status : OrderStatus
  deriving Repr, DecidableEq

/-- The gen-1 store slice `start_checkout` (`main.py`) touches: carts (as the
joined item lists `get_cart_items` yields) and orders. -/
structure Shop1State where
  carts : Nat → List Cart1Item
  orders : Nat → Option Order1
  next_order_id : Nat

/-- `CartManager.get_cart_total` (gen 1): sum of `price * quantity` over the
in-stock lines. -/
def get_cart_total (items : List Cart1Item) : ℚ :=
  ((items.filter (fun i => i.in_stock)).map (fun i => i.price * (i.quantity : ℚ))).sum

/-- `MoonFitBot.start_checkout` (gen 1, `main.py`): empty cart → error;
otherwise create the order (status defaults to `pending`, no payment hash),
show the payment instructions, and then — before any payment is observed —
`self.cart_manager.clear_cart(user_id)` empties the cart. Returns the new
order id. -/
def start_checkout (s : Shop1State) (uid : Nat) : Shop1State × Option Nat :=
  let items := s.carts uid
  if items.isEmpty then (s, none)
  else
    let total := get_cart_total items
    let oid := s.next_order_id
    let order : Order1 :=
      { user_id := uid, order_data := items, total_amount := total, status := .pending }
    let s1 : Shop1State :=
      { s with orders := fun o => if o = oid then some order else s.orders o,
               next_order_id := oid + 1 }
    let s2 : Shop1State := { s1 with carts := fun u => if u = uid then [] else s1.carts u }
    (s2, some oid)

/-- Concrete incoming transaction: 80 TON (80000000000 nanoTON) with decoded
comment `ORDER_1_7` and hash `h1`. -/
def c1_tx : LedgerTx :=
  ⟨some ⟨some "W", some "80000000000", some "msg.dataText", some "ORDER_1_7", none⟩,
   some ⟨some "h1"⟩⟩

/-- Concrete gen-1 store: user 7 has one in-stock cart line, no orders yet,
next order id 42. -/
def c2_state : Shop1State :=
  ⟨fun u => if u = 7 then [⟨1, 2, 10, true⟩] else [], fun _ => none, 42⟩

/-- Concrete discount code: fixed 20 off, usage limit 5, used once,
no expiry, active. -/
def c3_code : DiscountCode :=
  ⟨1, "SAVE20", .fixed, 20, some 5, 1, none, true⟩

/-- Concrete discount registry: `c3_code` plus a usage-ledger row recording
that user 7 already used it (for order 100). -/
def c3_db : DiscountDB :=
  ⟨[c3_code], [⟨1, 7, 100⟩]⟩

/-- Concrete incoming transaction: 55 TON with comment `ORDER_3_9`,
hash `h6`. -/
def c6_tx : LedgerTx :=
  ⟨some ⟨some "W", some "55000000000", some "msg.dataText", some "ORDER_3_9", none⟩,
   some ⟨some "h6"⟩⟩

/-- Concrete gen-2 store: user 9 mid-checkout, waiting on payment for
pending order 3 (55 TON, comment `ORDER_3_9`), cart still full. -/
def c6_state : BotState :=
  { orders := fun o =>
      if o = 3 then some ⟨9, [⟨2, 1, 55⟩], 55, none, 0, 55, .pending, none⟩ else none,
    next_order_id := 4,
    carts := fun u => if u = 9 then [⟨2, 1, 55⟩] else [],
    sessions := fun u =>
      if u = 9 then some ("WAITING_PAYMENT", ⟨some 3, 55, "ORDER_3_9", none, 0⟩) else none,
    discounts := ⟨[], []⟩ }

/-- Concrete incoming transaction of 80 TON whose memo is absent (no
`msg.dataText`, no message body): its decoded comment is `""`. -/
def c7_tx : LedgerTx :=
  ⟨some ⟨some "W", some "80000000000", none, none, none⟩, some ⟨some "h2"⟩⟩

/-- Another absent-memo transaction, for the amended statement. -/
def c7w_tx : LedgerTx :=
  ⟨some ⟨some "W", some "5000000000", none, none, none⟩, some ⟨some "h3"⟩⟩

/-- Concrete incoming transaction: 80 TON with comment `ORDER_1_7`,
hash `h8`. -/
def c8_tx : LedgerTx :=
  ⟨some ⟨some "W", some "80000000000", some "msg.dataText", some "ORDER_1_7", none⟩,
   some ⟨some "h8"⟩⟩

/-- Concrete gen-2 store: user 7 has an 80-TON cart line, no orders or
sessions yet. -/
def c8_state : BotState :=
  { orders := fun _ => none, next_order_id := 1,
    carts := fun u => if u = 7 then [⟨1, 1, 80⟩] else [],
    sessions := fun _ => none, discounts := ⟨[], []⟩ }

/-- Concrete gen-2 store with one already-paid order and no sessions. -/
def c8w_state : BotState :=
  { orders := fun o =>
      if o = 1 then some ⟨7, [⟨1, 1, 80⟩], 80, none, 0, 80, .paid, some "hw"⟩ else none,
    next_order_id := 2,
    carts := fun _ => [], sessions := fun _ => none, discounts := ⟨[], []⟩ }

/-- Concrete transaction with `in_msg` entirely absent. -/
def c10_tx : LedgerTx :=
  ⟨none, some ⟨some "h4"⟩⟩

/-- Concrete transaction whose `value` field is not an integer string. -/
def c10_badval_tx : LedgerTx :=
  ⟨some ⟨some "W", some "12xyz", none, none, none⟩, none⟩

/-- Concrete transaction with `msg_data` and `message` both missing. -/
def c10_nomsg_tx : LedgerTx :=
  ⟨some ⟨some "W", some "5", none, none, none⟩, none⟩

/-- Concrete well-formed incoming transaction of 5 TON, comment `m`. -/
def c10_good_tx : LedgerTx :=
  ⟨some ⟨some "W", some "5000000000", some "msg.dataText", some "m", none⟩,
   some ⟨some "h5"⟩⟩

/-- Store invariant: no order row exists at or past the AUTOINCREMENT
cursor (sqlite hands out fresh, strictly increasing order ids). -/
def OrdersFresh (s : BotState) : Prop :=
  ∀ oid, s.next_order_id ≤ oid → s.orders oid = none

/-- Store invariant: a `WAITING_PAYMENT` session's (truthy) order id names
an order that is still `pending` — payment confirmation and cancellation
both delete the session row in the same step that moves the order on. -/
def SessionsPending (s : BotState) : Prop :=
  ∀ uid d, s.sessions uid = some ("WAITING_PAYMENT", d) →
    ∀ oid, d.order_id = some oid → oid ≠ 0 →
      order_status s oid = some OrderStatus.pending

/-- Store invariant: distinct users' waiting sessions never reference the
same order (each checkout creates its own fresh order id). -/
def SessionsInjective (s : BotState) : Prop :=
  ∀ u1 u2 d1 d2 oid, s.sessions u1 = some ("WAITING_PAYMENT", d1) →
    s.sessions u2 = some ("WAITING_PAYMENT", d2) →
    d1.order_id = some oid → d2.order_id = some oid → oid ≠ 0 → u1 = u2

/-- The conjunction of the three store invariants; it holds of the empty
store and is preserved by every checkout-flow operation. -/
def StoreInv (s : BotState) : Prop :=
  OrdersFresh s ∧ SessionsPending s ∧ SessionsInjective s

/-- C9: `validate_amount` accepts an amount iff it is at least
`MIN_TON_AMOUNT` and at most 1000 TON; anything above 1000 is rejected. -/
theorem validate_amount_iff (amount : ℚ) :
    (validate_amount amount).1 = true ↔ MIN_TON_AMOUNT ≤ amount ∧ amount ≤ 1000 := by
  unfold validate_amount
  by_cases h1 : amount < MIN_TON_AMOUNT
  · rw [if_pos h1]
    constructor
    · intro h; exact Bool.noConfusion h
    · rintro ⟨ha, _⟩; exact absurd h1 (not_lt.mpr ha)
  · rw [if_neg h1]
    by_cases h2 : amount > 1000
    · rw [if_pos h2]
      constructor
      · intro h; exact Bool.noConfusion h
      · rintro ⟨_, hb⟩; exact absurd h2 (not_lt.mpr hb)
    · rw [if_neg h2]
      exact iff_of_true rfl ⟨not_lt.mp h1, not_lt.mp h2⟩

/-- C4: for a nonnegative subtotal and a valid (positive-valued) discount
code, the computed discount equals the raw percentage/fixed amount clamped
to at most the subtotal (the floor at 0 never binds), it lies in
`[0, subtotal]`, and the final amount `subtotal - discount` is
nonnegative. -/
theorem calculate_discount_clamped (subtotal value : ℚ) (t : DiscountType)
    (hs : 0 ≤ subtotal) (hv : 0 < value) :
    calculate_discount subtotal t value
        = max 0 (min (raw_discount subtotal t value) subtotal)
      ∧ 0 ≤ calculate_discount subtotal t value
      ∧ calculate_discount subtotal t value ≤ subtotal
      ∧ 0 ≤ subtotal - calculate_discount subtotal t value := by
  have hraw : 0 ≤ raw_discount subtotal t value := by
    cases t
    · exact mul_nonneg hs (div_nonneg hv.le (by norm_num))
    · exact hv.le
  have hmin : 0 ≤ min (raw_discount subtotal t value) subtotal := le_min hraw hs
  refine ⟨?_, ?_, ?_, ?_⟩
  · unfold calculate_discount
    exact (max_eq_right hmin).symm
  · exact hmin
  · exact min_le_right _ _
  · exact sub_nonneg.mpr (min_le_right _ _)

/-- Witness for C4: subtotal 100 with the fixed code `SAVE20` (value 20). -/
theorem calculate_discount_clamped_witness :
    calculate_discount 100 .fixed 20
        = max 0 (min (raw_discount 100 .fixed 20) 100)
      ∧ 0 ≤ calculate_discount 100 .fixed 20
      ∧ calculate_discount 100 .fixed 20 ≤ 100
      ∧ 0 ≤ 100 - calculate_discount 100 .fixed 20 :=
  calculate_discount_clamped 100 20 .fixed (by norm_num) (by norm_num)

/-- C3: once a usage-ledger record exists for (code, user), every evaluation
of the code for that user is rejected — never `valid` — and whenever the
code is active, unexpired and under its usage limit (any remaining global
headroom), the rejection is specifically `alreadyUsed`. -/
theorem validate_discount_rejects_reused (db : DiscountDB) (code : String)
    (uid now : Nat) (d : DiscountCode)
    (hfind : get_discount_code db code = some d)
    (hused : user_already_used db d.id uid = true) :
    (∀ r, validate_discount_code db code uid now ≠ ValidateResult.valid r)
      ∧ (expiry_passed d now = false → limit_reached d = false →
          validate_discount_code db code uid now = ValidateResult.alreadyUsed) := by
  unfold validate_discount_code
  rw [hfind]
  constructor
  · intro r
    by_cases he : expiry_passed d now = true
    · simp [he]
    · by_cases hl : limit_reached d = true
      · simp [he, hl]
      · simp [he, hl, hused]
  · intro he hl
    simp [he, hl, hused]

/-- Witness for C3: user 7 already used `SAVE20` (limit 5, used once —
ample headroom); evaluation returns the already-used rejection. -/
theorem validate_discount_rejects_reused_witness :
    validate_discount_code c3_db "SAVE20" 7 0 = ValidateResult.alreadyUsed :=
  (validate_discount_rejects_reused c3_db "SAVE20" 7 0 c3_code (by decide)
    (by decide)).2 (by decide) (by decide)

/-- C5: a failing fetch (non-200 status, malformed payload, or network
exception) yields the empty batch, and a polling round built from it
behaves exactly like a round with no matching transaction: the loop
continues with the remaining rounds, never terminating early and never
propagating the failure. -/
theorem fetch_failure_keeps_polling (w : String) (ea : ℚ) (c : String)
    (f : FetchResult) (rest : List FetchResult) (hf : f.isFailure = true) :
    get_transaction_history f = []
      ∧ verify_payment w ea c (f :: rest) = verify_payment w ea c rest := by
  have hemp : get_transaction_history f = [] := by
    cases f with
    | ok txs => exact absurd hf (by simp [FetchResult.isFailure])
    | httpError st => rfl
    | badPayload => rfl
    | netError => rfl
  refine ⟨hemp, ?_⟩
  rw [verify_payment, hemp]
  rfl

/-- Witness for C5: a network error round before an empty successful round
is simply skipped. -/
theorem fetch_failure_keeps_polling_witness :
    get_transaction_history FetchResult.netError = []
      ∧ verify_payment "W" 1 "m" [FetchResult.netError, FetchResult.ok []]
        = verify_payment "W" 1 "m" [FetchResult.ok []] :=
  fetch_failure_keeps_polling "W" 1 "m" FetchResult.netError [FetchResult.ok []] (by decide)

/-- C10: malformed transaction records normalize to total defaults instead
of raising: a missing (or empty) `in_msg` yields not-incoming, amount 0 and
empty comment, and such a record is skipped by the matching scan without
aborting the round; a non-integer `value` yields amount 0; a record with
`msg_data` and `message` both missing yields the empty comment. -/
theorem malformed_tx_defaults (w : String) (tx : LedgerTx) (m : InMsg)
    (ea : ℚ) (c : String) (rest : List LedgerTx) :
    (tx.in_msg = none →
        is_incoming_transaction w tx = false
      ∧ get_transaction_amount tx = 0
      ∧ get_transaction_comment tx = ""
      ∧ find_matching_tx w ea c (tx :: rest) = find_matching_tx w ea c rest)
    ∧ (tx.in_msg = some m → pyToInt (m.value.getD "0") = none →
        get_transaction_amount tx = 0)
    ∧ (tx.in_msg = some m → m.msgDataType = none → m.message = none →
        get_transaction_comment tx = "") := by
  refine ⟨?_, ?_, ?_⟩
  · intro h
    have hinc : is_incoming_transaction w tx = false := by
      unfold is_incoming_transaction; rw [h]
    refine ⟨hinc, ?_, ?_, ?_⟩
    · unfold get_transaction_amount; rw [h]
    · unfold get_transaction_comment; rw [h]
    · rw [find_matching_tx]
      have : tx_matches w ea c tx = false := by
        unfold tx_matches
        rw [hinc]
        rfl
      rw [this]
      rfl
  · intro h hv
    simp [get_transaction_amount, h, hv]
  · intro h ht hm
    simp [get_transaction_comment, h, ht, hm]

/-- Witness for C10 at the three concrete malformed records (missing
`in_msg`, value `12xyz`, no `msg_data`/`message`). -/
theorem malformed_tx_defaults_witness :
    (is_incoming_transaction "W" c10_tx = false
      ∧ get_transaction_amount c10_tx = 0
      ∧ get_transaction_comment c10_tx = ""
      ∧ find_matching_tx "W" 5 "m" [c10_tx, c10_good_tx]
          = find_matching_tx "W" 5 "m" [c10_good_tx])
    ∧ get_transaction_amount c10_badval_tx = 0
    ∧ get_transaction_comment c10_nomsg_tx = "" :=
  ⟨(malformed_tx_defaults "W" c10_tx ⟨none, none, none, none, none⟩ 5 "m"
      [c10_good_tx]).1 rfl,
   (malformed_tx_defaults "W" c10_badval_tx ⟨some "W", some "12xyz", none, none, none⟩
      5 "m" []).2.1 rfl (by decide),
   (malformed_tx_defaults "W" c10_nomsg_tx ⟨some "W", some "5", none, none, none⟩
      5 "m" []).2.2 rfl rfl rfl⟩

/-- Helper: a transaction returned by the scan of one round is a member of
the batch and passes the matching test. -/
theorem find_matching_tx_sound (w : String) (ea : ℚ) (c : String) :
    ∀ (txs : List LedgerTx) (tx : LedgerTx),
      find_matching_tx w ea c txs = some tx →
        tx ∈ txs ∧ tx_matches w ea c tx = true := by
  intro txs
  induction txs with
  | nil => intro tx h; exact absurd h (by simp [find_matching_tx])
  | cons hd tl ih =>
    intro tx h
    rw [find_matching_tx] at h
    by_cases hm : tx_matches w ea c hd = true
    · rw [if_pos hm] at h
      cases h
      exact ⟨List.mem_cons_self _ _, hm⟩
    · rw [if_neg hm] at h
      obtain ⟨hmem, hmt⟩ := ih tx h
      exact ⟨List.mem_cons_of_mem _ hmem, hmt⟩

/-- C1: whenever `verify_payment` reports success with a transaction hash,
some fetched round contains a transaction that is incoming, whose amount is
within the matcher's epsilon (0.001) of the expected amount, whose decoded
comment is exactly (case-sensitively) the expected memo, and whose hash is
the reported one — so a transaction whose memo differs from the expected
memo is never the reported match, even with an exactly matching amount. -/
theorem verify_payment_sound (w : String) (ea : ℚ) (c : String)
    (rounds : List FetchResult) (h : String)
    (hv : verify_payment w ea c rounds = (true, some h)) :
    ∃ r ∈ rounds, ∃ tx ∈ get_transaction_history r,
      is_incoming_transaction w tx = true
        ∧ |get_transaction_amount tx - ea| < 1 / 1000
        ∧ get_transaction_comment tx = c
        ∧ get_transaction_hash tx = h := by
  induction rounds with
  | nil => exact absurd hv (by simp [verify_payment])
  | cons r rest ih =>
    rw [verify_payment] at hv
    cases hfind : find_matching_tx w ea c (get_transaction_history r) with
    | some tx =>
      rw [hfind] at hv
      have hh : get_transaction_hash tx = h := by
        have := congrArg Prod.snd hv
        simpa using this
      obtain ⟨hmem, hmt⟩ := find_matching_tx_sound w ea c _ tx hfind
      rw [tx_matches, Bool.and_assoc, Bool.and_eq_true, Bool.and_eq_true] at hmt
      obtain ⟨hinc, hamt, hcm⟩ := hmt
      refine ⟨r, List.mem_cons_self _ _, tx, hmem, hinc, ?_, ?_, hh⟩
      · exact of_decide_eq_true hamt
      · exact eq_of_beq hcm
    | none =>
      rw [hfind] at hv
      obtain ⟨r2, hr2, tx, htx, hrest⟩ := ih hv
      exact ⟨r2, List.mem_cons_of_mem _ hr2, tx, htx, hrest⟩

/-- Witness for C1: the 80-TON transaction `c1_tx` with memo `ORDER_1_7`
is reported, and the theorem recovers its properties. -/
theorem verify_payment_sound_witness :
    ∃ r ∈ [FetchResult.ok [c1_tx]], ∃ tx ∈ get_transaction_history r,
      is_incoming_transaction "W" tx = true
        ∧ |get_transaction_amount tx - 80| < 1 / 1000
        ∧ get_transaction_comment tx = "ORDER_1_7"
        ∧ get_transaction_hash tx = "h1" :=
  verify_payment_sound "W" 80 "ORDER_1_7" [FetchResult.ok [c1_tx]] "h1" (by
    have hp : pyToInt "80000000000" = some 80000000000 := by decide
    have hlt : |(80000000000 : ℚ) / 1000000000 - 80| < (1000 : ℚ)⁻¹ := by norm_num
    simp [verify_payment, find_matching_tx, tx_matches, is_incoming_transaction,
      get_transaction_amount, get_transaction_comment, get_transaction_hash,
      get_transaction_history, c1_tx, hp, hlt])

/-- C7 (as stated) is false: this transaction's memo is absent (its decoded
comment is `""`), yet the matcher reports it as the match when the expected
memo is the empty string and the amount matches — the code compares the
decoded comment (defaulting to `""`) by plain string equality, so an absent
memo does match the empty expected memo. -/
theorem absent_memo_matches_empty_expected :
    get_transaction_comment c7_tx = ""
      ∧ verify_payment "W" 80 "" [FetchResult.ok [c7_tx]] = (true, some "h2") := by
  constructor
  · rfl
  · have hp : pyToInt "80000000000" = some 80000000000 := by decide
    have hlt : |(80000000000 : ℚ) / 1000000000 - 80| < (1000 : ℚ)⁻¹ := by norm_num
    simp [verify_payment, find_matching_tx, tx_matches, is_incoming_transaction,
      get_transaction_amount, get_transaction_comment, get_transaction_hash,
      get_transaction_history, c7_tx, hp, hlt]

/-- C7 (amended): for every non-empty expected memo — in particular every
memo the system generates, which always has the non-empty
`ORDER_<orderId>_<userId>` shape — a transaction whose memo is absent
(decoded comment `""`) never passes the matching test. -/
theorem absent_memo_never_matches_nonempty (w : String) (ea : ℚ) (c : String)
    (tx : LedgerTx) (hc : c ≠ "") (hm : get_transaction_comment tx = "") :
    tx_matches w ea c tx = false := by
  have hbeq : (get_transaction_comment tx == c) = false := by
    rw [hm]
    exact beq_eq_false_iff_ne.mpr (fun hcontra => hc hcontra.symm)
  unfold tx_matches
  rw [hbeq, Bool.and_false]

/-- Witness for the amended C7: the absent-memo transaction `c7w_tx` does
not match the expected memo `ORDER_9_9`. -/
theorem absent_memo_never_matches_nonempty_witness :
    tx_matches "W" 5 "ORDER_9_9" c7w_tx = false :=
  absent_memo_never_matches_nonempty "W" 5 "ORDER_9_9" c7w_tx (by decide) rfl

/-- C2 is violated by gen 1's `start_checkout` (`main.py`): from a store
where user 7 has a non-empty cart, `start_checkout` creates order 42, the
order is still `pending` (no payment has been observed, so a timeout or
failure leaves it unpaid) — and yet the user's cart is already empty,
because the handler calls `clear_cart` immediately after creating the
order instead of waiting for confirmed payment. -/
theorem start_checkout_clears_cart_before_payment :
    c2_state.carts 7 ≠ []
      ∧ (start_checkout c2_state 7).2 = some 42
      ∧ ((start_checkout c2_state 7).1.orders 42).map Order1.status
          = some OrderStatus.pending
      ∧ (start_checkout c2_state 7).1.carts 7 = [] := by
  refine ⟨by simp [c2_state], ?_, ?_, ?_⟩ <;>
    simp [start_checkout, c2_state, get_cart_total]

/-- Helper: after a successful confirmation the user's session row is gone
(the guard state the second call reads is the missing-row default). -/
theorem clear_user_state_sessions (s : BotState) (uid : Nat) :
    (clear_user_state s uid).sessions uid = none := by
  simp [clear_user_state]

/-- C6: if `check_payment_status` confirms a payment (outcome `paid`), a
second invocation in sequence is a complete no-op: it returns the
no-pending-payment outcome and leaves the store untouched — no duplicate
discount-usage row, no second used-count increment, and the cart is not
cleared a second time. -/
theorem check_payment_status_idempotent (w : String) (s : BotState) (uid : Nat)
    (rounds rounds2 : List FetchResult) (oid : Nat) (h : String)
    (hpaid : (check_payment_status w s uid rounds).2 = CheckOutcome.paid oid h) :
    check_payment_status w (check_payment_status w s uid rounds).1 uid rounds2
      = ((check_payment_status w s uid rounds).1, CheckOutcome.noPending) := by
  by_cases hg : ((get_user_state s uid).1 == "WAITING_PAYMENT"
      && pyTruthyNat (get_user_state s uid).2.order_id) = true
  · by_cases hv : (verify_payment w (get_user_state s uid).2.amount
        (get_user_state s uid).2.comment rounds).1 = true
    · have hfst :
          (check_payment_status w s uid rounds).1.sessions uid = none := by
        simp only [check_payment_status, hg, if_true, hv]
        simp [clear_user_state]
      have hb : (("" : String) == "WAITING_PAYMENT") = false := by decide
      conv_lhs => rw [check_payment_status]
      rw [show get_user_state (check_payment_status w s uid rounds).1 uid
            = ("", emptySession) by simp [get_user_state, hfst]]
      simp [hb, emptySession, pyTruthyNat]
    · exact absurd hpaid (by
        simp only [check_payment_status, hg, if_true, hv]
        simp)
  · exact absurd hpaid (by simp only [check_payment_status, hg]; simp)

/-- Witness for C6: from `c6_state`, the first call confirms order 3 with
hash `h6`; the second call is a no-op. -/
theorem check_payment_status_idempotent_witness :
    check_payment_status "W"
        (check_payment_status "W" c6_state 9 [FetchResult.ok [c6_tx]]).1 9
        [FetchResult.ok [c6_tx]]
      = ((check_payment_status "W" c6_state 9 [FetchResult.ok [c6_tx]]).1,
          CheckOutcome.noPending) :=
  check_payment_status_idempotent "W" c6_state 9 [FetchResult.ok [c6_tx]]
    [FetchResult.ok [c6_tx]] 3 "h6" (by
      have hp : pyToInt "55000000000" = some 55000000000 := by decide
      have hlt : |(55000000000 : ℚ) / 1000000000 - 55| < (1000 : ℚ)⁻¹ := by norm_num
      simp [check_payment_status, get_user_state, c6_state, pyTruthyNat,
        verify_payment, find_matching_tx, tx_matches, is_incoming_transaction,
        get_transaction_amount, get_transaction_comment, get_transaction_hash,
        get_transaction_history, c6_tx, hp, hlt])

/-- Helper: when the `WAITING_PAYMENT`-and-truthy-order-id guard passes, the
session row exists with exactly the data the handler read, and its order id
is a nonzero `some`. -/
theorem session_of_guard (s : BotState) (uid : Nat)
    (hg : ((get_user_state s uid).1 == "WAITING_PAYMENT"
        && pyTruthyNat (get_user_state s uid).2.order_id) = true) :
    s.sessions uid = some ("WAITING_PAYMENT", (get_user_state s uid).2)
      ∧ (get_user_state s uid).2.order_id
          = some ((get_user_state s uid).2.order_id.getD 0)
      ∧ (get_user_state s uid).2.order_id.getD 0 ≠ 0 := by
  rw [Bool.and_eq_true] at hg
  obtain ⟨h1, h2⟩ := hg
  cases hs : s.sessions uid with
  | none =>
    rw [get_user_state, hs] at h1
    exact absurd h1 (by decide)
  | some p =>
    obtain ⟨st, d⟩ := p
    rw [get_user_state, hs] at h1 h2 ⊢
    simp only [Option.getD_some] at h1 h2 ⊢
    have hst : st = "WAITING_PAYMENT" := by
      have := eq_of_beq h1
      simpa using this
    subst hst
    cases hd : d.order_id with
    | none => rw [hd] at h2; exact absurd h2 (by simp [pyTruthyNat])
    | some n =>
      rw [hd] at h2
      simp only [pyTruthyNat] at h2
      refine ⟨rfl, by simp [hd], ?_⟩
      simp only [hd, Option.getD_some]
      exact fun hzero => by simp [hzero] at h2


/-- Helper: under the store invariant, one checkout-flow operation never
moves an order away from `paid` — payment confirmation only ever writes
`paid`, and cancellation only targets the (pending) order of a waiting
session, never a paid one. -/
theorem step_preserves_paid (w : String) (s : BotState) (op : BotOp)
    (hop : op.isUserOp = true) (hinv : StoreInv s) (oid : Nat)
    (hp : order_status s oid = some OrderStatus.paid) :
    order_status (step w s op) oid = some OrderStatus.paid := by
  obtain ⟨hfresh, hpend, hinj⟩ := hinv
  cases op with
  | processPayment uid =>
    simp only [step]
    cases hprep : prepare_order_data s uid with
    | none => simp only [process_payment, hprep]; exact hp
    | some pr =>
      obtain ⟨items, total⟩ := pr
      have hlt : oid < s.next_order_id := by
        by_contra hge
        push_neg at hge
        rw [order_status, hfresh oid hge] at hp
        exact Option.noConfusion hp
      have hne : oid ≠ s.next_order_id := Nat.ne_of_lt hlt
      simp only [process_payment, hprep, set_user_state, order_status] at hp ⊢
      rw [if_neg hne]
      exact hp
  | checkPayment uid rounds =>
    simp only [step]
    by_cases hg : ((get_user_state s uid).1 == "WAITING_PAYMENT"
        && pyTruthyNat (get_user_state s uid).2.order_id) = true
    · by_cases hv : (verify_payment w (get_user_state s uid).2.amount
          (get_user_state s uid).2.comment rounds).1 = true
      · simp only [check_payment_status, hg, if_true, hv]
        simp only [order_status, clear_user_state, clear_cart, update_order_status] at hp ⊢
        by_cases he : oid = (get_user_state s uid).2.order_id.getD 0
        · rw [if_pos he]
          cases horder : s.orders oid with
          | none => rw [horder] at hp; exact Option.noConfusion hp
          | some od => simp [horder]
        · rw [if_neg he]
          exact hp
      · simp only [check_payment_status, hg, if_true]
        rw [if_neg hv]
        exact hp
    · simp only [check_payment_status]
      rw [if_neg (by exact fun hcontra => hg hcontra)]
      exact hp
  | cancelOrder uid =>
    simp only [step]
    by_cases hg : ((get_user_state s uid).1 == "WAITING_PAYMENT"
        && pyTruthyNat (get_user_state s uid).2.order_id) = true
    · obtain ⟨hsess, hdsome, hnz⟩ := session_of_guard s uid hg
      have hpendn := hpend uid _ hsess _ hdsome hnz
      have hneq : oid ≠ (get_user_state s uid).2.order_id.getD 0 := by
        intro he
        rw [he, hpendn] at hp
        exact absurd hp (by simp)
      simp only [cancel_current_order, hg, if_true]
      simp only [order_status, clear_user_state, update_order_status] at hp ⊢
      rw [if_neg hneq]
      exact hp
    · simp only [cancel_current_order]
      rw [if_neg (by exact fun hcontra => hg hcontra)]
      exact hp
  | adminSetStatus oid2 st2 => exact absurd hop (by simp [BotOp.isUserOp])

/-- Helper: every checkout-flow operation preserves the store invariant. -/
theorem step_preserves_inv (w : String) (s : BotState) (op : BotOp)
    (hop : op.isUserOp = true) (hinv : StoreInv s) : StoreInv (step w s op) := by
  obtain ⟨hfresh, hpend, hinj⟩ := hinv
  cases op with
  | processPayment uid =>
    simp only [step]
    cases hprep : prepare_order_data s uid with
    | none => simp only [process_payment, hprep]; exact ⟨hfresh, hpend, hinj⟩
    | some pr =>
      obtain ⟨items, total⟩ := pr
      simp only [process_payment, hprep, set_user_state]
      refine ⟨?_, ?_, ?_⟩
      · intro oid hge
        simp only at hge ⊢
        have hne : oid ≠ s.next_order_id := by omega
        rw [if_neg hne]
        exact hfresh oid (by omega)
      · intro u d hsess oid hd hnz
        simp only at hsess ⊢
        by_cases hu : u = uid
        · rw [if_pos hu] at hsess
          rw [Option.some_inj] at hsess
          simp only [Prod.mk.injEq, true_and] at hsess
          have hoid : oid = s.next_order_id := by
            rw [← hsess] at hd
            simp only at hd
            exact (Option.some_inj.mp hd).symm
          simp only [order_status]
          rw [hoid, if_pos rfl]
          rfl
        · rw [if_neg hu] at hsess
          have hold := hpend u d hsess oid hd hnz
          have horder : s.orders oid ≠ none := by
            intro hnone
            rw [order_status, hnone] at hold
            exact Option.noConfusion hold
          have hne : oid ≠ s.next_order_id := by
            intro he
            exact horder (by rw [he]; exact hfresh _ (le_refl _))
          simp only [order_status] at hold ⊢
          rw [if_neg hne]
          exact hold
      · intro u1 u2 d1 d2 oid h1 h2 hd1 hd2 hnz
        simp only at h1 h2
        by_cases hu1 : u1 = uid <;> by_cases hu2 : u2 = uid
        · rw [hu1, hu2]
        · exfalso
          rw [if_pos hu1] at h1
          rw [if_neg hu2] at h2
          rw [Option.some_inj] at h1
          simp only [Prod.mk.injEq, true_and] at h1
          have hoid : oid = s.next_order_id := by
            rw [← h1] at hd1
            simp only at hd1
            exact (Option.some_inj.mp hd1).symm
          have hold := hpend u2 d2 h2 oid hd2 hnz
          rw [order_status, hoid, hfresh _ (le_refl _)] at hold
          exact Option.noConfusion hold
        · exfalso
          rw [if_neg hu1] at h1
          rw [if_pos hu2] at h2
          rw [Option.some_inj] at h2
          simp only [Prod.mk.injEq, true_and] at h2
          have hoid : oid = s.next_order_id := by
            rw [← h2] at hd2
            simp only at hd2
            exact (Option.some_inj.mp hd2).symm
          have hold := hpend u1 d1 h1 oid hd1 hnz
          rw [order_status, hoid, hfresh _ (le_refl _)] at hold
          exact Option.noConfusion hold
        · rw [if_neg hu1] at h1
          rw [if_neg hu2] at h2
          exact hinj u1 u2 d1 d2 oid h1 h2 hd1 hd2 hnz
  | checkPayment uid rounds =>
    simp only [step]
    by_cases hg : ((get_user_state s uid).1 == "WAITING_PAYMENT"
        && pyTruthyNat (get_user_state s uid).2.order_id) = true
    · by_cases hv : (verify_payment w (get_user_state s uid).2.amount
          (get_user_state s uid).2.comment rounds).1 = true
      · obtain ⟨hsessu, hdsome, hnz⟩ := session_of_guard s uid hg
        simp only [check_payment_status, hg, if_true, hv]
        simp only [clear_user_state, clear_cart, update_order_status]
        refine ⟨?_, ?_, ?_⟩
        · intro oid hge
          simp only at hge ⊢
          by_cases he : oid = (get_user_state s uid).2.order_id.getD 0
          · rw [if_pos he, hfresh oid hge]; rfl
          · rw [if_neg he]; exact hfresh oid hge
        · intro u d hsess oid hd hnz2
          simp only at hsess ⊢
          by_cases hu : u = uid
          · rw [if_pos hu] at hsess; exact Option.noConfusion hsess
          · rw [if_neg hu] at hsess
            have hold := hpend u d hsess oid hd hnz2
            have hne : oid ≠ (get_user_state s uid).2.order_id.getD 0 := by
              intro he
              exact hu (hinj u uid d (get_user_state s uid).2 oid hsess hsessu hd
                (by rw [he] at hd ⊢; exact hdsome) (by rw [← he] at hnz; exact hnz2))
            simp only [order_status] at hold ⊢
            rw [if_neg hne]
            exact hold
        · intro u1 u2 d1 d2 oid h1 h2 hd1 hd2 hnz2
          simp only at h1 h2
          by_cases hu1 : u1 = uid
          · rw [if_pos hu1] at h1; exact Option.noConfusion h1
          · by_cases hu2 : u2 = uid
            · rw [if_pos hu2] at h2; exact Option.noConfusion h2
            · rw [if_neg hu1] at h1
              rw [if_neg hu2] at h2
              exact hinj u1 u2 d1 d2 oid h1 h2 hd1 hd2 hnz2
      · simp only [check_payment_status, hg, if_true]
        rw [if_neg hv]
        exact ⟨hfresh, hpend, hinj⟩
    · simp only [check_payment_status]
      rw [if_neg (by exact fun hcontra => hg hcontra)]
      exact ⟨hfresh, hpend, hinj⟩
  | cancelOrder uid =>
    simp only [step]
    by_cases hg : ((get_user_state s uid).1 == "WAITING_PAYMENT"
        && pyTruthyNat (get_user_state s uid).2.order_id) = true
    · obtain ⟨hsessu, hdsome, hnz⟩ := session_of_guard s uid hg
      simp only [cancel_current_order, hg, if_true]
      simp only [clear_user_state, update_order_status]
      refine ⟨?_, ?_, ?_⟩
      · intro oid hge
        simp only at hge ⊢
        by_cases he : oid = (get_user_state s uid).2.order_id.getD 0
        · rw [if_pos he, hfresh oid hge]; rfl
        · rw [if_neg he]; exact hfresh oid hge
      · intro u d hsess oid hd hnz2
        simp only at hsess ⊢
        by_cases hu : u = uid
        · rw [if_pos hu] at hsess; exact Option.noConfusion hsess
        · rw [if_neg hu] at hsess
          have hold := hpend u d hsess oid hd hnz2
          have hne : oid ≠ (get_user_state s uid).2.order_id.getD 0 := by
            intro he
            exact hu (hinj u uid d (get_user_state s uid).2 oid hsess hsessu hd
              (by rw [he] at hd ⊢; exact hdsome) (by rw [← he] at hnz; exact hnz2))
          simp only [order_status] at hold ⊢
          rw [if_neg hne]
          exact hold
      · intro u1 u2 d1 d2 oid h1 h2 hd1 hd2 hnz2
        simp only at h1 h2
        by_cases hu1 : u1 = uid
        · rw [if_pos hu1] at h1; exact Option.noConfusion h1
        · by_cases hu2 : u2 = uid
          · rw [if_pos hu2] at h2; exact Option.noConfusion h2
          · rw [if_neg hu1] at h1
            rw [if_neg hu2] at h2
            exact hinj u1 u2 d1 d2 oid h1 h2 hd1 hd2 hnz2
    · simp only [cancel_current_order]
      rw [if_neg (by exact fun hcontra => hg hcontra)]
      exact ⟨hfresh, hpend, hinj⟩
  | adminSetStatus oid2 st2 => exact absurd hop (by simp [BotOp.isUserOp])

/-- C8 (as stated) is false: `Database.update_order_status` carries no guard
on the previous status, so a reachable operation sequence — checkout,
successful payment confirmation, then the admin panel's status update —
takes order 1 from `paid` to `cancelled`. -/
theorem paid_order_cancelled_by_admin :
    order_status (run "W" c8_state
        [BotOp.processPayment 7, BotOp.checkPayment 7 [FetchResult.ok [c8_tx]]]) 1
      = some OrderStatus.paid
    ∧ order_status (run "W" c8_state
        [BotOp.processPayment 7, BotOp.checkPayment 7 [FetchResult.ok [c8_tx]],
          BotOp.adminSetStatus 1 OrderStatus.cancelled]) 1
      = some OrderStatus.cancelled := by
  have hp : pyToInt "80000000000" = some 80000000000 := by decide
  have hcm : "ORDER_" ++ toString (1 : Nat) ++ "_" ++ toString (7 : Nat)
      = "ORDER_1_7" := by decide
  have hlt : |(80000000000 : ℚ) / 1000000000 - 80| < (1000 : ℚ)⁻¹ := by norm_num
  constructor <;>
    simp [run, step, process_payment, prepare_order_data, get_cart, get_user_state,
      set_user_state, emptySession, check_payment_status, pyTruthyNat, pyTruthyStr,
      verify_payment, find_matching_tx, tx_matches, is_incoming_transaction,
      get_transaction_amount, get_transaction_comment, get_transaction_hash,
      get_transaction_history, c8_tx, c8_state, hp, hcm, hlt,
      update_order_status, clear_cart, clear_user_state, discounts_after_payment,
      admin_update_order_status, order_status]

/-- C8 (amended): over the checkout-flow operations (`process_payment`,
`check_payment_status`, `cancel_current_order`), from any store satisfying
the invariant, an order that has reached `paid` stays `paid` forever and in
particular is never set to `cancelled`: cancellation is only reachable
through a `WAITING_PAYMENT` session, whose order is still `pending`. The
admin panel's unguarded status override is excluded — it can cancel from
any status. -/
theorem paid_never_cancelled_in_checkout_flow (w : String) (s : BotState)
    (ops : List BotOp) (hops : ∀ op ∈ ops, op.isUserOp = true)
    (hinv : StoreInv s) (oid : Nat)
    (hp : order_status s oid = some OrderStatus.paid) :
    order_status (run w s ops) oid = some OrderStatus.paid
      ∧ order_status (run w s ops) oid ≠ some OrderStatus.cancelled := by
  have main : order_status (run w s ops) oid = some OrderStatus.paid := by
    induction ops generalizing s with
    | nil => exact hp
    | cons op ops ih =>
      rw [run]
      have hopu := hops op (List.mem_cons_self _ _)
      exact ih _ (fun x hx => hops x (List.mem_cons_of_mem _ hx))
        (step_preserves_inv w s op hopu hinv)
        (step_preserves_paid w s op hopu hinv oid hp)
  exact ⟨main, by rw [main]; simp⟩

/-- Witness for the amended C8: from a store whose only order is already
paid, a cancellation attempt and another payment check leave it paid. -/
theorem paid_never_cancelled_in_checkout_flow_witness :
    order_status (run "W" c8w_state [BotOp.cancelOrder 7, BotOp.checkPayment 7 []]) 1
        = some OrderStatus.paid
      ∧ order_status (run "W" c8w_state [BotOp.cancelOrder 7, BotOp.checkPayment 7 []]) 1
        ≠ some OrderStatus.cancelled :=
  paid_never_cancelled_in_checkout_flow "W" c8w_state
    [BotOp.cancelOrder 7, BotOp.checkPayment 7 []]
    (by decide)
    ⟨fun oid hge => by
        have hge2 : (2 : Nat) ≤ oid := hge
        have hne : oid ≠ 1 := by omega
        simp [c8w_state, hne],
     fun uid d hsess => by simp [c8w_state] at hsess,
     fun u1 u2 d1 d2 oid h1 => by simp [c8w_state] at h1⟩
    1 (by simp [c8w_state, order_status])
